import Mathlib

set_option maxRecDepth 60000
set_option maxHeartbeats 1000000

/-!
Shallow embedding of the maXTouch firmware-flash bootloader driver
(`src/tools/mxt_app/bootloader.c`) and of the kernel-log message cursor
(`src/libmaxtouch/sysfs/dmesg.c`).

The transport is modelled as a script: a list of read responses consumed by
`mxt_bootloader_read`, and a list of write outcomes consumed by
`mxt_bootloader_write`.  Every externally visible action of the driver
(readiness wait, transport read, transport write, the per-frame log lines)
is recorded in an event trace.  The firmware file is a character stream with
an explicit `feof` flag, matching C stdio semantics (the flag is set only
after a failed `fgetc`).

An uninitialised C local (`val` in `get_hex_value` when `sscanf` matches
nothing) is modelled by a `junk` parameter threaded through the driver: the
value stored is arbitrary but fixed, truncated to a byte as the assignment
to `unsigned char` is in C.
-/

/-- Constant MXT_WAITING_BOOTLOAD_CMD from bootloader.c (valid in bits 7-6). -/
def MXT_WAITING_BOOTLOAD_CMD : Nat := 0xc0

/-- Constant MXT_WAITING_FRAME_DATA from bootloader.c (valid in bits 7-6). -/
def MXT_WAITING_FRAME_DATA : Nat := 0x80

/-- Constant MXT_FRAME_CRC_CHECK from bootloader.c. -/
def MXT_FRAME_CRC_CHECK : Nat := 0x02

/-- Constant MXT_FRAME_CRC_FAIL from bootloader.c. -/
def MXT_FRAME_CRC_FAIL : Nat := 0x03

/-- Constant MXT_FRAME_CRC_PASS from bootloader.c. -/
def MXT_FRAME_CRC_PASS : Nat := 0x04

/-- Constant MXT_APP_CRC_FAIL from bootloader.c (valid in bits 7-6). -/
def MXT_APP_CRC_FAIL : Nat := 0x40

/-- Constant MXT_BOOT_STATUS_MASK from bootloader.c. -/
def MXT_BOOT_STATUS_MASK : Nat := 0x3f

/-- Constant FIRMWARE_BUFFER_SIZE from bootloader.c. -/
def FIRMWARE_BUFFER_SIZE : Nat := 1024

/-- The mutable part of `struct bootloader_ctx` that the state machine
(`mxt_check_bootloader`) reads and writes. -/
structure Ctx where
  have_bootloader_version : Bool
  extended_id_mode : Bool
  deriving DecidableEq

/-- One scripted response of the transport to a `mxt_bootloader_read` call:
either the bytes placed in the caller's buffer, or a read failure. -/
inductive TResp where
  | ok (bytes : List Nat)
  | fail
  deriving DecidableEq

/-- Observable actions of the driver.  `waitChg` is a call to `wait_for_chg`,
`read n` a transport read of `n` bytes, `write bytes ok` a transport write
(`ok` is the scripted outcome the transport reported).  The three log events
model the frame-loop log lines of `send_frames`: the LOG_ERROR
"Frame %d: CRC fail, retry %d", the LOG_INFO "Frame %d: Sent %d bytes" and
the LOG_VERBOSE "Frame %d: Sent %d bytes". -/
inductive Event where
  | waitChg
  | read (n : Nat)
  | write (bytes : List Nat) (ok : Bool)
  | logCrcFail (frame retry : Nat)
  | logSentInfo (frame size : Nat)
  | logSentVerbose (frame size : Nat)
  deriving DecidableEq

/-- Outcome of processing one status read inside `mxt_check_bootloader`:
either the function returns (`done`), or it takes the `goto recheck` path. -/
inductive StepRes where
  | done (r : Int) (ctx : Ctx)
  | recheck (ctx : Ctx)
  deriving DecidableEq

/-- The condition of bootloader.c lines 129-130: a three-byte
(status, id, version) read is performed instead of a one-byte status read. -/
def readThree (ctx : Ctx) (state : Nat) : Bool :=
  !ctx.have_bootloader_version && ctx.extended_id_mode &&
    decide (state = MXT_WAITING_FRAME_DATA)

/-- Events of one `recheck` iteration of `mxt_check_bootloader`: the
conditional `wait_for_chg` (line 126-127: skipped exactly when the expected
state is `MXT_WAITING_BOOTLOAD_CMD`) followed by the transport read. -/
def checkEvts (ctx : Ctx) (state : Nat) : List Event :=
  (if state = MXT_WAITING_BOOTLOAD_CMD then [] else [Event.waitChg]) ++
    [Event.read (if readThree ctx state then 3 else 1)]

/-- One iteration of the body of `mxt_check_bootloader` (lines 129-209),
acting on a single scripted read response.  Status bytes are `unsigned char`,
hence the `% 256`.  Note line 196: the source tests `bootloader_id | 0x20`
(bitwise OR), which is nonzero for every id, so the extended-ID branch is
always taken; this is transcribed as-is. -/
def checkStep (ctx : Ctx) (state : Nat) (resp : TResp) : StepRes :=
  match resp with
  | TResp.fail => StepRes.done (-1) ctx
  | TResp.ok bytes =>
    let ctx1 := if readThree ctx state then
        { ctx with have_bootloader_version := true } else ctx
    let val := bytes.getD 0 0 % 256
    if state = MXT_WAITING_BOOTLOAD_CMD then
      let bid := val &&& MXT_BOOT_STATUS_MASK
      let v := val &&& 0xc0
      if v = MXT_APP_CRC_FAIL then StepRes.recheck ctx1
      else if v = MXT_WAITING_FRAME_DATA then StepRes.done (-3) ctx1
      else if v ≠ MXT_WAITING_BOOTLOAD_CMD then StepRes.done (-2) ctx1
      else if !ctx1.have_bootloader_version then
        if bid ||| 0x20 ≠ 0 then
          StepRes.done 0 { ctx1 with extended_id_mode := true }
        else
          StepRes.done 0 { ctx1 with have_bootloader_version := true }
      else StepRes.done 0 ctx1
    else if state = MXT_WAITING_FRAME_DATA then
      if val = MXT_FRAME_CRC_PASS then StepRes.recheck ctx1
      else if val &&& 0xc0 ≠ MXT_WAITING_FRAME_DATA then StepRes.done (-2) ctx1
      else StepRes.done 0 ctx1
    else if state = MXT_FRAME_CRC_PASS then
      if val = MXT_FRAME_CRC_CHECK then StepRes.recheck ctx1
      else if val = MXT_FRAME_CRC_FAIL then StepRes.done (-4) ctx1
      else if val ≠ MXT_FRAME_CRC_PASS then StepRes.done (-2) ctx1
      else StepRes.done 0 ctx1
    else StepRes.done (-2) ctx1

/-- `mxt_check_bootloader` (bootloader.c lines 118-210) over a scripted
transport.  Returns (return value, updated context, unconsumed script,
event trace).  An exhausted script behaves as a failing read. -/
def mxt_check_bootloader : Ctx → Nat → List TResp → Int × Ctx × List TResp × List Event
  | ctx, state, [] => (-1, ctx, [], checkEvts ctx state)
  | ctx, state, resp :: rest =>
    match checkStep ctx state resp with
    | StepRes.done r ctx1 => (r, ctx1, rest, checkEvts ctx state)
    | StepRes.recheck ctx1 =>
      let t := mxt_check_bootloader ctx1 state rest
      (t.1, t.2.1, t.2.2.1, checkEvts ctx state ++ t.2.2.2)

/-- C stdio stream state: remaining characters plus the `feof` flag, which is
set only by an `fgetc` that hits the end. -/
structure FileSt where
  data : List Char
  eof : Bool
  deriving DecidableEq

/-- `fgetc`: pop one character; at end of data, set the eof flag. -/
def fgetc : FileSt → Option Char × FileSt
  | ⟨[], _⟩ => (none, ⟨[], true⟩)
  | ⟨c :: rest, e⟩ => (some c, ⟨rest, e⟩)

/-- Value of an ASCII hex digit, if the character is one. -/
def hexVal (c : Char) : Option Nat :=
  if '0' ≤ c ∧ c ≤ '9' then some (c.toNat - ('0').toNat)
  else if 'a' ≤ c ∧ c ≤ 'f' then some (c.toNat - ('a').toNat + 10)
  else if 'A' ≤ c ∧ c ≤ 'F' then some (c.toNat - ('A').toNat + 10)
  else none

/-- White space as skipped by `sscanf`. -/
def isSpaceCh (c : Char) : Bool :=
  c = ' ' || c = '\t' || c = '\n' || c = '\r' || c = '\x0b' || c = '\x0c'

/-- `sscanf(str, "%x", &val)` on the two-character string `[a, b]`:
skip leading white space, then read a maximal run of hex digits.  Returns the
number of conversions (1 on success, 0 on a matching failure, -1/EOF when the
input is exhausted by white space) and the converted value when any. -/
def sscanf_hex (a b : Char) : Int × Option Nat :=
  match hexVal a with
  | some d0 =>
    match hexVal b with
    | some d1 => (1, some (16 * d0 + d1))
    | none => (1, some d0)
  | none =>
    if isSpaceCh a then
      match hexVal b with
      | some d1 => (1, some d1)
      | none => if isSpaceCh b then (-1, none) else (0, none)
    else (0, none)

/-- `get_hex_value` (bootloader.c lines 212-228): read two characters, return
EOF (-1) if the stream ended, otherwise parse them with `sscanf "%x"` and
store the value — which is the indeterminate `junk` when `sscanf` converted
nothing, since the source assigns the uninitialised `val` regardless of the
`sscanf` return value.  The store is a byte store (`unsigned char *ptr`). -/
def get_hex_value (f : FileSt) (junk : Nat) : Int × Nat × FileSt :=
  let g0 := fgetc f
  let g1 := fgetc g0.2
  if g1.2.eof then (-1, junk % 256, g1.2)
  else
    match g0.1, g1.1 with
    | some a, some b =>
      let s := sscanf_hex a b
      (s.1, s.2.getD junk % 256, g1.2)
    | _, _ => (-1, junk % 256, g1.2)

/-- The local state of the `send_frames` frame loop (bootloader.c 230-341). -/
structure LoopSt where
  ctx : Ctx
  file : FileSt
  reads : List TResp
  writes : List Bool
  buffer : List Nat
  frame_size : Nat
  frame : Nat
  frame_retry : Nat
  deriving DecidableEq

/-- Outcome of the parse phase (lines 269-302) of one loop iteration. -/
inductive ParseRes where
  | brk
  | err
  | cont (st : LoopSt)
  deriving DecidableEq

/-- The loop of bootloader.c lines 292-301: read `n` further hex byte values
into the frame buffer; EOF anywhere is fatal.  A `0` return of
`get_hex_value` (bad hex) is not checked by the source and the stored value
is kept. -/
def readPayload (junk : Nat) : Nat → FileSt → Option (List Nat × FileSt)
  | 0, f => some ([], f)
  | n + 1, f =>
    let g := get_hex_value f junk
    if g.1 = -1 then none
    else
      match readPayload junk n g.2.2 with
      | none => none
      | some pr => some (g.2.1 :: pr.1, pr.2)

/-- The parse phase of one `send_frames` loop iteration (lines 269-302):
only performed when `frame_retry == 0`; reads the two header bytes, computes
`frame_size = ((buffer[0] << 8) | buffer[1]) + 2` and rejects frames larger
than `FIRMWARE_BUffER_SIZE` before reading the rest of the frame. -/
def parsePhase (junk : Nat) (st : LoopSt) : ParseRes :=
  if st.frame_retry ≠ 0 then ParseRes.cont st
  else
    let g0 := get_hex_value st.file junk
    if g0.1 = -1 then ParseRes.brk
    else
      let g1 := get_hex_value g0.2.2 junk
      if g1.1 = -1 then ParseRes.err
      else
        let fsz := ((g0.2.1 <<< 8) ||| g1.2.1) + 2
        if FIRMWARE_BUFFER_SIZE < fsz then ParseRes.err
        else
          match readPayload junk (fsz - 2) g1.2.2 with
          | none => ParseRes.err
          | some pr =>
            ParseRes.cont { st with file := pr.2,
                                    buffer := g0.2.1 :: g1.2.1 :: pr.1,
                                    frame_size := fsz }

/-- Pop the scripted outcome of the next `mxt_bootloader_write`; an exhausted
script means the write succeeds. -/
def popWrite : List Bool → Bool × List Bool
  | [] => (true, [])
  | b :: rest => (b, rest)

/-- The `while (!feof(ctx->fp))` loop of `send_frames` (lines 268-332),
with fuel for termination (each non-final iteration consumes at least one
scripted read, so `reads.length + 1` fuel is always enough; exhausted fuel
returns the sentinel -99 on a path that is never reached from
`send_frames`).  Transcribed control flow: parse a new frame only when
`frame_retry == 0`; abort when the WAITING_FRAME_DATA handshake fails; write
the frame ignoring the transport's result (line 310); on a CRC handshake
failure abort if a retry already happened, otherwise increment `frame_retry`
and loop, re-sending the same buffer; on success increment `frame` —
`frame_retry` is NOT reset — and emit the LOG_INFO progress line exactly when
the incremented `frame` is divisible by 20, the LOG_VERBOSE line
otherwise. -/
def frameLoop (junk : Nat) : Nat → LoopSt → Int × List Event
  | 0, _ => (-99, [])
  | fuel + 1, st =>
    if st.file.eof then (0, [])
    else
      match parsePhase junk st with
      | ParseRes.brk => (0, [])
      | ParseRes.err => (-1, [])
      | ParseRes.cont st1 =>
        let c := mxt_check_bootloader st1.ctx MXT_WAITING_FRAME_DATA st1.reads
        if c.1 < 0 then (-1, c.2.2.2)
        else
          let w := popWrite st1.writes
          let c2 := mxt_check_bootloader c.2.1 MXT_FRAME_CRC_PASS c.2.2.1
          if c2.1 ≠ 0 then
            if 0 < st1.frame_retry then
              (-1, c.2.2.2 ++ [Event.write st1.buffer w.1] ++ c2.2.2.2)
            else
              let l := frameLoop junk fuel
                { st1 with ctx := c2.2.1, reads := c2.2.2.1, writes := w.2,
                           frame_retry := st1.frame_retry + 1 }
              (l.1, c.2.2.2 ++ [Event.write st1.buffer w.1] ++ c2.2.2.2 ++
                    [Event.logCrcFail st1.frame (st1.frame_retry + 1)] ++ l.2)
          else
            let l := frameLoop junk fuel
              { st1 with ctx := c2.2.1, reads := c2.2.2.1, writes := w.2,
                         frame := st1.frame + 1 }
            (l.1, c.2.2.2 ++ [Event.write st1.buffer w.1] ++ c2.2.2.2 ++
                  [(if (st1.frame + 1) % 20 = 0 then
                      Event.logSentInfo (st1.frame + 1) st1.frame_size
                    else
                      Event.logSentVerbose (st1.frame + 1) st1.frame_size)] ++
                  l.2)

/-- `send_frames` (bootloader.c lines 230-341): reset the identity fields,
run the unlock three-way branch (lines 242-262: on 0 write the unlock pair
`[0xDC, 0xAA]` — `buf[0] = MXT_UNLOCK_CMD_LSB`, `buf[1] = MXT_UNLOCK_CMD_MSB`
— and abort if that write fails; on -3 proceed directly; otherwise abort),
then the frame loop. -/
def send_frames (file : FileSt) (reads : List TResp) (writes : List Bool)
    (junk : Nat) : Int × List Event :=
  let c := mxt_check_bootloader ⟨false, false⟩ MXT_WAITING_BOOTLOAD_CMD reads
  if c.1 = 0 then
    if (popWrite writes).1 = false then
      (-1, c.2.2.2 ++ [Event.write [0xdc, 0xaa] false])
    else
      let l := frameLoop junk (c.2.2.1.length + 1)
        ⟨c.2.1, file, c.2.2.1, (popWrite writes).2, [], 0, 1, 0⟩
      (l.1, c.2.2.2 ++ [Event.write [0xdc, 0xaa] true] ++ l.2)
  else if c.1 = -3 then
    let l := frameLoop junk (c.2.2.1.length + 1)
      ⟨c.2.1, file, c.2.2.1, writes, [], 0, 1, 0⟩
    (l.1, c.2.2.2 ++ l.2)
  else (-1, c.2.2.2)

/-- `lookup_bootloader_addr` (bootloader.c lines 343-363).  `family_id` is
`info_block.id->family_id`.  The 0x4a/0x4b case falls through to the
`addr - 0x26` case when `family_id < 0xa2`. -/
def lookup_bootloader_addr (family_id : Nat) (addr : Nat) : Int :=
  if addr = 0x4a ∨ addr = 0x4b then
    if 0xa2 ≤ family_id then (addr : Int) - 0x24 else (addr : Int) - 0x26
  else if addr = 0x4c ∨ addr = 0x4d ∨ addr = 0x5a ∨ addr = 0x5b then
    (addr : Int) - 0x26
  else -1

/-- Outcome of the address handling of `mxt_bootloader_init_chip` for a
caller-supplied address: the bootloader address, the application-mode
address, and whether `i2c_dev_set_address` was invoked on the supplied
(application-mode) address. -/
structure InitAddrResult where
  bootloader_address : Int
  appmode_address : Int
  switched : Bool
  deriving DecidableEq

/-- Address handling of `mxt_bootloader_init_chip` (lines 374-385) for a
supplied adapter/address pair, together with line 458: when
`lookup_bootloader_addr` yields -1 the supplied address is used directly as
the bootloader address, `appmode_address` becomes -1 and no address switch is
made; otherwise the appmode address is latched, the adapter switched to it,
and (for an i2c-dev device, after the info read and reset succeed) the
bootloader address is the lookup of the appmode address. -/
def mxt_bootloader_init_addr (family_id : Nat) (addr : Nat) : InitAddrResult :=
  if lookup_bootloader_addr family_id addr = -1 then
    ⟨(addr : Int), -1, false⟩
  else
    ⟨lookup_bootloader_addr family_id addr, (addr : Int), true⟩

/-- One node of the `dmesg_list` linked list (dmesg.c). -/
structure DmesgItem where
  msg : String
  sec : Nat
  msec : Nat
  deriving DecidableEq

/-- The dereference `dmesg_ptr->msg` of `sysfs_get_msg_string` line 203,
made total: the cursor is the remainder of the list, the null pointer is `[]`
and the access returns `none` exactly there. -/
def derefMsg : List DmesgItem → Option String
  | [] => none
  | it :: _ => some it.msg

/-- `sysfs_get_msg_string` (dmesg.c lines 199-212): the node's `msg` field is
read FIRST (line 203), and only afterwards is the cursor compared against
null (line 205) to decide whether to advance it. -/
def sysfs_get_msg_string (cursor : List DmesgItem) :
    Option String × List DmesgItem :=
  let msg_string := derefMsg cursor
  let next := if cursor = [] then cursor else cursor.tail
  (msg_string, next)

/-- Is an event a `wait_for_chg` call. -/
def isWaitChg : Event → Bool
  | Event.waitChg => true
  | _ => false

/-- A trace containing no readiness waits at all. -/
def noWaitEvents (tr : List Event) : Bool :=
  tr.all fun e => !isWaitChg e

/-- Helper: every `read` event in the list is immediately preceded by a
`waitChg` event; the boolean argument tells whether the (virtual) previous
event was a `waitChg`. -/
def readsWaitedAux : Bool → List Event → Bool
  | _, [] => true
  | prev, Event.read _ :: rest => prev && readsWaitedAux false rest
  | _, Event.waitChg :: rest => readsWaitedAux true rest
  | _, Event.write _ _ :: rest => readsWaitedAux false rest
  | _, Event.logCrcFail _ _ :: rest => readsWaitedAux false rest
  | _, Event.logSentInfo _ _ :: rest => readsWaitedAux false rest
  | _, Event.logSentVerbose _ _ :: rest => readsWaitedAux false rest

/-- Every `read` event of the trace is immediately preceded by `waitChg`. -/
def readsWaited (tr : List Event) : Bool :=
  readsWaitedAux false tr

/-- Every `read` event of the trace except the first one is immediately
preceded by `waitChg` (the reading of the claim "every status read except
the very first is preceded by a readiness wait"). -/
def allButFirstReadWaited : List Event → Bool
  | [] => true
  | Event.read _ :: rest => readsWaitedAux false rest
  | _ :: rest => allButFirstReadWaited rest

/-- Events that are pure transport handshake actions (no writes, no logs). -/
def transportOnly : Event → Bool
  | Event.waitChg => true
  | Event.read _ => true
  | _ => false

/-- The transport writes of a trace (payload bytes and scripted outcome). -/
def writeEvents : List Event → List (List Nat × Bool)
  | [] => []
  | Event.write b ok :: rest => (b, ok) :: writeEvents rest
  | _ :: rest => writeEvents rest

/-- The per-frame "Sent" log lines of a trace, as (printed frame number,
was the line informational). -/
def sentPairs : List Event → List (Nat × Bool)
  | [] => []
  | Event.logSentInfo f _ :: rest => (f, true) :: sentPairs rest
  | Event.logSentVerbose f _ :: rest => (f, false) :: sentPairs rest
  | _ :: rest => sentPairs rest

/-- Just the informational flags of the "Sent" log lines, in order: the entry
at index `k` belongs to the (k+1)-th successfully transferred frame. -/
def sentFlags (tr : List Event) : List Bool :=
  (sentPairs tr).map Prod.snd

/-- A "Sent" log line is informational exactly if the frame number it prints
is divisible by 20. -/
def sentOk : Event → Bool
  | Event.logSentInfo f _ => f % 20 == 0
  | Event.logSentVerbose f _ => !(f % 20 == 0)
  | _ => true

/-- Formalisation of the C9 claim for a given session trace: the "Sent" line
after the k-th successfully transferred frame (index k-1) is informational
exactly when k is a positive multiple of 20. -/
def infoAtMultiplesOf20 (tr : List Event) : Prop :=
  ∀ k, k < (sentFlags tr).length →
    ((sentFlags tr).get? k = some true ↔ (k + 1) % 20 = 0)

/-- C1 scenario: an image with two 2-byte-payload frames. -/
def c1file : FileSt := ⟨("0002AABB0002CCDD").toList, false⟩

/-- C1 scenario transport script: enter bootloader, frame 1 CRC-fails once
then passes, and the device keeps acknowledging further writes. -/
def c1reads : List TResp :=
  [TResp.ok [0xc0], TResp.ok [0x80, 1, 1], TResp.ok [0x03], TResp.ok [0x80],
   TResp.ok [0x04], TResp.ok [0x80], TResp.ok [0x04]]

/-- C4 scenario: one frame whose total size is exactly 1024 bytes
(header value 0x03FE = 1022 payload-and-header bytes, plus 2 CRC bytes). -/
def c4file : FileSt := ⟨("03FE").toList ++ List.replicate 2044 '0', false⟩

/-- C4 scenario transport script. -/
def c4reads : List TResp :=
  [TResp.ok [0xc0], TResp.ok [0x80, 1, 1], TResp.ok [0x04]]

/-- The frame bytes of the C4 scenario. -/
def c4frame : List Nat := 3 :: 254 :: List.replicate 1022 0

/-- The C4 transport script after the initial bootloader check. -/
def c4tail : List TResp := [TResp.ok [0x80, 1, 1], TResp.ok [0x04]]

/-- C4 witness input: a header declaring a frame larger than the buffer. -/
def c4bigfile : FileSt := ⟨("04FF").toList, false⟩

/-- C5/C6 scenario: an image with one frame of two payload bytes. -/
def c5file : FileSt := ⟨("0002AABB").toList, false⟩

/-- C5/C6 scenario transport script: one frame accepted first try. -/
def c5reads : List TResp :=
  [TResp.ok [0xc0], TResp.ok [0x80, 1, 1], TResp.ok [0x04]]

/-- C6 scenario: the two-character group "GG" inside the frame is not a pair
of hex digits. -/
def c6file : FileSt := ⟨("0002GG12").toList, false⟩

/-- C9 scenario: twenty zero-payload frames (each frame is just the two
header bytes, since `frame_size = 0 + 2`). -/
def c9file : FileSt :=
  ⟨(List.replicate 20 (("0000").toList)).flatten, false⟩

/-- C9 scenario transport script: every frame accepted on the first try. -/
def c9reads : List TResp :=
  TResp.ok [0xc0] :: TResp.ok [0x80, 1, 1] :: TResp.ok [0x04] ::
    (List.replicate 19 [TResp.ok [0x80], TResp.ok [0x04]]).flatten

/-! Helper lemmas about the traces of the state machine. -/

theorem checkEvts_transport (ctx : Ctx) (state : Nat) :
    (checkEvts ctx state).all transportOnly = true := by
  unfold checkEvts
  split <;> simp [transportOnly]

theorem check_trace_transport (reads : List TResp) :
    ∀ ctx state,
      ((mxt_check_bootloader ctx state reads).2.2.2).all transportOnly = true := by
  induction reads with
  | nil =>
    intro ctx state
    simpa [mxt_check_bootloader] using checkEvts_transport ctx state
  | cons r rest ih =>
    intro ctx state
    simp only [mxt_check_bootloader]
    cases h : checkStep ctx state r with
    | done r1 c1 => simpa using checkEvts_transport ctx state
    | recheck c1 => simp [List.all_append, checkEvts_transport, ih]

theorem transport_only_no_writes :
    ∀ tr : List Event, tr.all transportOnly = true → writeEvents tr = [] := by
  intro tr
  induction tr with
  | nil => intro _; rfl
  | cons e rest ih =>
    intro h
    simp only [List.all_cons, Bool.and_eq_true] at h
    cases e with
    | write b ok => simp [transportOnly] at h
    | waitChg => simpa [writeEvents] using ih h.2
    | read n => simpa [writeEvents] using ih h.2
    | logCrcFail f r => simpa [writeEvents] using ih h.2
    | logSentInfo f s => simpa [writeEvents] using ih h.2
    | logSentVerbose f s => simpa [writeEvents] using ih h.2

theorem check_trace_no_writes (reads : List TResp) (ctx : Ctx) (state : Nat) :
    writeEvents (mxt_check_bootloader ctx state reads).2.2.2 = [] :=
  transport_only_no_writes _ (check_trace_transport reads ctx state)

theorem all_sentOk_of_transport (tr : List Event)
    (h : tr.all transportOnly = true) : tr.all sentOk = true := by
  rw [List.all_eq_true] at h ⊢
  intro e he
  have h2 := h e he
  cases e <;> simp_all [transportOnly, sentOk]

theorem check_trace_sentOk (reads : List TResp) (ctx : Ctx) (state : Nat) :
    ((mxt_check_bootloader ctx state reads).2.2.2).all sentOk = true :=
  all_sentOk_of_transport _ (check_trace_transport reads ctx state)

theorem frameLoop_sentOk (junk : Nat) :
    ∀ fuel st, ((frameLoop junk fuel st).2).all sentOk = true := by
  intro fuel
  induction fuel with
  | zero => intro st; rfl
  | succ n ih =>
    intro st
    simp only [frameLoop]
    split
    · rfl
    · split
      · rfl
      · rfl
      · split
        · exact check_trace_sentOk _ _ _
        · split
          · split
            · simp [List.all_append, check_trace_sentOk, sentOk]
            · simp only [List.all_append]
              simp [check_trace_sentOk, sentOk, ih]
          · simp only [List.all_append]
            simp only [check_trace_sentOk, ih, Bool.and_true, Bool.true_and]
            rw [Bool.and_eq_true]
            refine ⟨by simp [sentOk], ?_⟩
            split
            · simp_all [sentOk]
            · simp_all [sentOk]

theorem check_cmd_noWait (reads : List TResp) :
    ∀ ctx,
      noWaitEvents
        (mxt_check_bootloader ctx MXT_WAITING_BOOTLOAD_CMD reads).2.2.2 = true := by
  induction reads with
  | nil =>
    intro ctx
    simp [mxt_check_bootloader, checkEvts, noWaitEvents, isWaitChg]
  | cons r rest ih =>
    intro ctx
    simp only [mxt_check_bootloader]
    cases h : checkStep ctx MXT_WAITING_BOOTLOAD_CMD r with
    | done r1 c1 => simp [checkEvts, noWaitEvents, isWaitChg]
    | recheck c1 =>
      have h2 := ih c1
      simp only [noWaitEvents] at h2 ⊢
      rw [List.all_append, Bool.and_eq_true]
      exact ⟨by simp [checkEvts, isWaitChg], h2⟩

theorem check_readsWaited (reads : List TResp) :
    ∀ ctx state, state ≠ MXT_WAITING_BOOTLOAD_CMD →
      readsWaited (mxt_check_bootloader ctx state reads).2.2.2 = true := by
  induction reads with
  | nil =>
    intro ctx state h
    simp [mxt_check_bootloader, checkEvts, readsWaited, readsWaitedAux, h]
  | cons r rest ih =>
    intro ctx state h
    simp only [mxt_check_bootloader]
    cases hs : checkStep ctx state r with
    | done r1 c1 => simp [checkEvts, readsWaited, readsWaitedAux, h]
    | recheck c1 =>
      have h2 := ih c1 state h
      simp only [readsWaited] at h2 ⊢
      simp [checkEvts, readsWaitedAux, h, h2]

/-! Claim theorems. -/

/-- C1: evaluation of `send_frames` at the one-retry-then-pass scenario.  The
image holds two frames, `00 02 AA BB` and `00 02 CC DD`; the device fails
frame 1's CRC once and then acknowledges every attempt.  Because the source
never resets `frame_retry` after a successful retry, the driver keeps
re-transmitting frame 1's bytes instead of parsing frame 2 (whose bytes
`[0, 2, 0xcc, 0xdd]` never appear among the writes), and the session ends in
error once the script is exhausted — refuting the claimed reset of the
per-frame retry counter. -/
theorem c1_retry_counter_not_reset :
    (send_frames c1file c1reads [] 0).1 = -1 ∧
    writeEvents (send_frames c1file c1reads [] 0).2 =
      [([0xdc, 0xaa], true), ([0x00, 0x02, 0xaa, 0xbb], true),
       ([0x00, 0x02, 0xaa, 0xbb], true), ([0x00, 0x02, 0xaa, 0xbb], true)] := by
  decide

/-- C2: evaluation of `mxt_check_bootloader` at a successful
WAITING_BOOTLOAD_CMD read with status byte 0xC5: bit 0x20 of the low-6-bit
field (5) is clear, yet the source enables extended-ID mode and does not
latch the identity, because its test `bootloader_id | 0x20` is a bitwise OR
and therefore always true.  Consequently a triple-byte read does occur on the
next WAITING_FRAME_DATA check, contradicting the claim. -/
theorem c2_extended_id_always_enabled :
    mxt_check_bootloader ⟨false, false⟩ MXT_WAITING_BOOTLOAD_CMD
        [TResp.ok [0xc5]] =
      (0, ⟨false, true⟩, [], [Event.read 1]) ∧
    (mxt_check_bootloader ⟨false, true⟩ MXT_WAITING_FRAME_DATA
        [TResp.ok [0x80, 0x2a, 0x05]]).2.2.2 =
      [Event.waitChg, Event.read 3] := by
  decide

/-- C5: evaluation of `send_frames` at a session whose frame write fails
(write script `[true, false]`: the unlock write succeeds, the frame write
reports failure).  The source ignores the return value of
`mxt_bootloader_write` for frame writes (line 310), so the CRC handshake
(`waitChg`, `read 1`) still happens after the failed write and the session
ends successfully — refuting "every transport write failure is fatal". -/
theorem c5_frame_write_failure_ignored :
    send_frames c5file c5reads [true, false] 0 =
      (0, [Event.read 1, Event.write [0xdc, 0xaa] true, Event.waitChg,
           Event.read 3, Event.write [0x00, 0x02, 0xaa, 0xbb] false,
           Event.waitChg, Event.read 1, Event.logSentVerbose 2 4]) := by
  decide

/-- C6: evaluation of `send_frames` on an image whose third byte group is
"GG", not a pair of hex digits.  The callers of `get_hex_value` only compare
its result against EOF, never against 0, so the group is accepted, the
uninitialised `val` (modelled as junk byte 0xAB) is stored in the frame
buffer, and the frame is transmitted; the session succeeds — refuting every
part of the claimed BadHex failure. -/
theorem c6_bad_hex_silently_accepted :
    (send_frames c6file c5reads [] 0xab).1 = 0 ∧
    writeEvents (send_frames c6file c5reads [] 0xab).2 =
      [([0xdc, 0xaa], true), ([0x00, 0x02, 0xab, 0x12], true)] := by
  decide

/-- C7 counterexample: a session whose first status read returns 0x45
(APP_CRC_FAIL after masking) and whose re-read returns 0xC0.  The `goto
recheck` path skips `wait_for_chg` whenever the expected state is
WAITING_BOOTLOAD_CMD (line 126-127), so the re-read triggered by
APP_CRC_FAIL is NOT preceded by a readiness wait: the claim "every status
read except the very first is preceded by a readiness wait" is false on this
session trace. -/
theorem c7_app_crc_fail_reread_not_waited :
    allButFirstReadWaited
      (send_frames ⟨[], false⟩ [TResp.ok [0x45], TResp.ok [0xc0]] [] 0).2 =
      false := by
  decide

/-- C7 amended: the readiness wait is governed by the expected state, not by
being the first read: a `mxt_check_bootloader` call expecting
WAITING_BOOTLOAD_CMD performs no readiness wait at all — including any
APP_CRC_FAIL re-reads — while a call expecting WAITING_FRAME_DATA or
FRAME_CRC_PASS precedes every one of its reads (including transient
re-reads) with a readiness wait. -/
theorem c7_wait_policy (ctx : Ctx) (reads : List TResp) :
    noWaitEvents
      (mxt_check_bootloader ctx MXT_WAITING_BOOTLOAD_CMD reads).2.2.2 = true ∧
    readsWaited
      (mxt_check_bootloader ctx MXT_WAITING_FRAME_DATA reads).2.2.2 = true ∧
    readsWaited
      (mxt_check_bootloader ctx MXT_FRAME_CRC_PASS reads).2.2.2 = true :=
  ⟨check_cmd_noWait reads ctx,
   check_readsWaited reads ctx MXT_WAITING_FRAME_DATA (by decide),
   check_readsWaited reads ctx MXT_FRAME_CRC_PASS (by decide)⟩

/-- C10: `sysfs_get_msg_string` dereferences the cursor before comparing it
against null: on the empty (fully consumed) message list the access hits the
`none` branch of the total embedding, while on a non-empty list the head
node's `msg` is returned and the cursor advances; the `none` branch is
reachable by consuming a one-element list. -/
theorem c10_msg_cursor_precondition :
    (sysfs_get_msg_string []).1 = none ∧
    (∀ (it : DmesgItem) (rest : List DmesgItem),
      sysfs_get_msg_string (it :: rest) = (some it.msg, rest)) ∧
    (∀ it : DmesgItem,
      (sysfs_get_msg_string (sysfs_get_msg_string [it]).2).1 = none) := by
  refine ⟨rfl, ?_, ?_⟩
  · intro it rest
    simp [sysfs_get_msg_string, derefMsg]
  · intro it
    simp [sysfs_get_msg_string, derefMsg]

/-- C3: the unlock attempt of `send_frames` is a three-way branch on the
result of the initial WAITING_BOOTLOAD_CMD state-machine call: on 0 the
driver writes exactly the two unlock bytes `[0xDC, 0xAA]` and then enters
the frame loop; on -3 (already unlocked) it writes nothing and enters the
frame loop directly; on any other result the session returns -1 with only
the state machine's handshake events — no write at all — so no frame is
transmitted. -/
theorem c3_unlock_three_way (file : FileSt) (reads : List TResp)
    (writes : List Bool) (junk : Nat) (ctx1 : Ctx) (reads1 : List TResp)
    (tr1 : List Event) :
    (mxt_check_bootloader ⟨false, false⟩ MXT_WAITING_BOOTLOAD_CMD reads =
        (0, ctx1, reads1, tr1) →
      (popWrite writes).1 = true →
      send_frames file reads writes junk =
        ((frameLoop junk (reads1.length + 1)
            ⟨ctx1, file, reads1, (popWrite writes).2, [], 0, 1, 0⟩).1,
         tr1 ++ [Event.write [0xdc, 0xaa] true] ++
           (frameLoop junk (reads1.length + 1)
             ⟨ctx1, file, reads1, (popWrite writes).2, [], 0, 1, 0⟩).2)) ∧
    (mxt_check_bootloader ⟨false, false⟩ MXT_WAITING_BOOTLOAD_CMD reads =
        (-3, ctx1, reads1, tr1) →
      send_frames file reads writes junk =
        ((frameLoop junk (reads1.length + 1)
            ⟨ctx1, file, reads1, writes, [], 0, 1, 0⟩).1,
         tr1 ++ (frameLoop junk (reads1.length + 1)
             ⟨ctx1, file, reads1, writes, [], 0, 1, 0⟩).2)) ∧
    (∀ r : Int,
      mxt_check_bootloader ⟨false, false⟩ MXT_WAITING_BOOTLOAD_CMD reads =
        (r, ctx1, reads1, tr1) →
      r ≠ 0 → r ≠ -3 →
      send_frames file reads writes junk = (-1, tr1) ∧
        writeEvents tr1 = []) := by
  refine ⟨?_, ?_, ?_⟩
  · intro hchk hw
    simp only [send_frames, hchk]
    simp [hw]
  · intro hchk
    simp only [send_frames, hchk]
    simp
  · intro r hchk h0 h3
    constructor
    · simp only [send_frames, hchk]
      simp [h0, h3]
    · have h4 := check_trace_no_writes reads ⟨false, false⟩
        MXT_WAITING_BOOTLOAD_CMD
      rw [hchk] at h4
      simpa using h4

/-- C3 witness: the three branches at concrete transport scripts — status
0xC0 (unlock written, then the frame loop ends at once on the empty image),
status 0x80 (already unlocked, nothing written), status 0x00 (bootloader not
found, session aborts with only the read in its trace). -/
theorem c3_unlock_three_way_wit :
    send_frames ⟨[], false⟩ [TResp.ok [0xc0]] [] 0 =
      (0, [Event.read 1, Event.write [0xdc, 0xaa] true]) ∧
    send_frames ⟨[], false⟩ [TResp.ok [0x80]] [] 0 = (0, [Event.read 1]) ∧
    send_frames ⟨[], false⟩ [TResp.ok [0x00]] [] 0 = (-1, [Event.read 1]) := by
  refine ⟨?_, ?_, ?_⟩
  · have h := (c3_unlock_three_way ⟨[], false⟩ [TResp.ok [0xc0]] [] 0
      ⟨false, true⟩ [] [Event.read 1]).1 (by decide) (by decide)
    rw [h]; decide
  · have h := (c3_unlock_three_way ⟨[], false⟩ [TResp.ok [0x80]] [] 0
      ⟨false, false⟩ [] [Event.read 1]).2.1 (by decide)
    rw [h]; decide
  · exact ((c3_unlock_three_way ⟨[], false⟩ [TResp.ok [0x00]] [] 0
      ⟨false, false⟩ [] [Event.read 1]).2.2 (-2) (by decide) (by decide)
      (by decide)).1

theorem c4file_eq :
    c4file = ⟨'0' :: '3' :: 'F' :: 'E' :: List.replicate 2044 '0', false⟩ :=
  rfl

theorem get_hex_03 (rest : List Char) (junk : Nat) :
    get_hex_value ⟨'0' :: '3' :: rest, false⟩ junk = (1, 3, ⟨rest, false⟩) :=
  rfl

theorem get_hex_FE (rest : List Char) (junk : Nat) :
    get_hex_value ⟨'F' :: 'E' :: rest, false⟩ junk = (1, 254, ⟨rest, false⟩) :=
  rfl

theorem get_hex_zero (rest : List Char) (junk : Nat) :
    get_hex_value ⟨'0' :: '0' :: rest, false⟩ junk = (1, 0, ⟨rest, false⟩) :=
  rfl

theorem readPayload_zeros (junk : Nat) :
    ∀ n, readPayload junk n ⟨List.replicate (2 * n) '0', false⟩ =
      some (List.replicate n 0, ⟨[], false⟩) := by
  intro n
  induction n with
  | zero => rfl
  | succ m ih =>
    have h2 : 2 * (m + 1) = 2 * m + 1 + 1 := by ring
    rw [h2, List.replicate_succ, List.replicate_succ]
    simp only [readPayload, get_hex_zero]
    simp [ih, List.replicate_succ]

theorem parsePhase_cont (junk : Nat) (st : LoopSt) (b0 b1 : Nat)
    (f1 f2 f3 : FileSt) (bs : List Nat)
    (hr : st.frame_retry = 0)
    (h0 : get_hex_value st.file junk = (1, b0, f1))
    (h1 : get_hex_value f1 junk = (1, b1, f2))
    (hsz : ¬ FIRMWARE_BUFFER_SIZE < ((b0 <<< 8) ||| b1) + 2)
    (hp : readPayload junk ((b0 <<< 8) ||| b1) f2 = some (bs, f3)) :
    parsePhase junk st = ParseRes.cont
      { st with file := f3, buffer := b0 :: b1 :: bs,
                frame_size := ((b0 <<< 8) ||| b1) + 2 } := by
  simp only [parsePhase]
  rw [hr]
  simp [h0, h1, hsz, Nat.add_sub_cancel, hp]

theorem frameLoop_step_pass (junk fuel : Nat) (st st1 : LoopSt)
    (ctx2 ctx3 : Ctx) (reads2 reads3 : List TResp) (tr1 tr2 : List Event)
    (hf : st.file.eof = false)
    (hp : parsePhase junk st = ParseRes.cont st1)
    (hc : mxt_check_bootloader st1.ctx MXT_WAITING_FRAME_DATA st1.reads =
      (0, ctx2, reads2, tr1))
    (hc2 : mxt_check_bootloader ctx2 MXT_FRAME_CRC_PASS reads2 =
      (0, ctx3, reads3, tr2)) :
    frameLoop junk (fuel + 1) st =
      ((frameLoop junk fuel
          { st1 with ctx := ctx3, reads := reads3,
                     writes := (popWrite st1.writes).2,
                     frame := st1.frame + 1 }).1,
       tr1 ++ [Event.write st1.buffer (popWrite st1.writes).1] ++ tr2 ++
         [(if (st1.frame + 1) % 20 = 0 then
             Event.logSentInfo (st1.frame + 1) st1.frame_size
           else
             Event.logSentVerbose (st1.frame + 1) st1.frame_size)] ++
         (frameLoop junk fuel
           { st1 with ctx := ctx3, reads := reads3,
                      writes := (popWrite st1.writes).2,
                      frame := st1.frame + 1 }).2) := by
  simp only [frameLoop, hp]
  simp [hf, hc, hc2]

theorem frameLoop_step_brk (junk fuel : Nat) (st : LoopSt)
    (hf : st.file.eof = false)
    (hp : parsePhase junk st = ParseRes.brk) :
    frameLoop junk (fuel + 1) st = (0, []) := by
  simp [frameLoop, hf, hp]

theorem c4_parse :
    parsePhase 0 ⟨⟨false, true⟩, c4file, c4tail, [], [], 0, 1, 0⟩ =
      ParseRes.cont ⟨⟨false, true⟩, ⟨[], false⟩, c4tail, [], c4frame,
        1024, 1, 0⟩ := by
  have hp : readPayload 0 ((3 <<< 8) ||| 254)
      ⟨List.replicate 2044 '0', false⟩ =
      some (List.replicate 1022 0, ⟨[], false⟩) := by
    rw [show ((3 <<< 8) ||| 254) = 1022 from by decide,
        show (2044 : Nat) = 2 * 1022 from by norm_num]
    exact readPayload_zeros 0 1022
  have h := parsePhase_cont 0 ⟨⟨false, true⟩, c4file, c4tail, [], [], 0, 1, 0⟩
    3 254 ⟨'F' :: 'E' :: List.replicate 2044 '0', false⟩
    ⟨List.replicate 2044 '0', false⟩ ⟨[], false⟩ (List.replicate 1022 0)
    rfl (by rw [c4file_eq]; exact get_hex_03 _ _) (get_hex_FE _ _)
    (by decide) hp
  exact h

theorem c4_loop :
    frameLoop 0 (c4tail.length + 1)
      ⟨⟨false, true⟩, c4file, c4tail, [], [], 0, 1, 0⟩ =
      (0, [Event.waitChg, Event.read 3, Event.write c4frame true,
           Event.waitChg, Event.read 1, Event.logSentVerbose 2 1024]) := by
  have h1 := frameLoop_step_pass 0 c4tail.length
    ⟨⟨false, true⟩, c4file, c4tail, [], [], 0, 1, 0⟩
    ⟨⟨false, true⟩, ⟨[], false⟩, c4tail, [], c4frame, 1024, 1, 0⟩
    ⟨true, true⟩ ⟨true, true⟩ [TResp.ok [0x04]] []
    [Event.waitChg, Event.read 3] [Event.waitChg, Event.read 1]
    rfl c4_parse (by decide) (by decide)
  rw [h1]
  rw [show frameLoop 0 c4tail.length
      {(⟨⟨false, true⟩, ⟨[], false⟩, c4tail, [], c4frame, 1024, 1,
          0⟩ : LoopSt) with
        ctx := (⟨true, true⟩ : Ctx), reads := ([] : List TResp),
        writes := (popWrite []).2, frame := 1 + 1} = (0, []) from
    frameLoop_step_brk 0 1 _ rfl rfl]
  simp [popWrite]

theorem c4_run :
    send_frames c4file c4reads [] 0 =
      (0, [Event.read 1, Event.write [0xdc, 0xaa] true, Event.waitChg,
           Event.read 3, Event.write c4frame true, Event.waitChg,
           Event.read 1, Event.logSentVerbose 2 1024]) := by
  simp only [send_frames]
  rw [show mxt_check_bootloader ⟨false, false⟩ MXT_WAITING_BOOTLOAD_CMD
      c4reads = (0, ⟨false, true⟩, c4tail, [Event.read 1]) from by decide]
  simp only [popWrite]
  simp [c4_loop]

/-- C4: for any iteration of the frame loop that parses a new frame (retry
counter 0), when the header parses to bytes b0, b1 and the frame size
`((b0 << 8) | b1) + 2` exceeds FIRMWARE_BUFFER_SIZE, the loop returns -1
with an empty event trace — no handshake read and no transport write happen
for that frame; and a frame of size exactly 1024 is accepted and transmitted
(the concrete session writes the full 1024-byte frame and succeeds). -/
theorem c4_frame_size_limit :
    (∀ (junk fuel : Nat) (st : LoopSt) (r0 r1 : Int) (b0 b1 : Nat)
        (f1 f2 : FileSt),
      st.frame_retry = 0 →
      st.file.eof = false →
      get_hex_value st.file junk = (r0, b0, f1) →
      r0 ≠ -1 →
      get_hex_value f1 junk = (r1, b1, f2) →
      r1 ≠ -1 →
      FIRMWARE_BUFFER_SIZE < ((b0 <<< 8) ||| b1) + 2 →
      frameLoop junk (fuel + 1) st = (-1, [])) ∧
    ((send_frames c4file c4reads [] 0).1 = 0 ∧
      writeEvents (send_frames c4file c4reads [] 0).2 =
        [([0xdc, 0xaa], true), (c4frame, true)] ∧
      c4frame.length = FIRMWARE_BUFFER_SIZE) := by
  constructor
  · intro junk fuel st r0 r1 b0 b1 f1 f2 hr hf h0 h0n h1 h1n hsz
    have hp : parsePhase junk st = ParseRes.err := by
      simp only [parsePhase]
      rw [hr]
      simp [h0, h1, h0n, h1n, hsz]
    simp [frameLoop, hf, hp]
  · refine ⟨by rw [c4_run], by rw [c4_run]; rfl, ?_⟩
    simp [c4frame, FIRMWARE_BUFFER_SIZE]

/-- C4 witness: a parse state whose first header declares frame size 1281
(header bytes 0x04 0xFF) makes the loop abort with an empty trace. -/
theorem c4_frame_size_limit_wit :
    frameLoop 0 1 ⟨⟨false, true⟩, c4bigfile, [], [], [], 0, 1, 0⟩ =
      (-1, []) :=
  c4_frame_size_limit.1 0 0 ⟨⟨false, true⟩, c4bigfile, [], [], [], 0, 1, 0⟩
    1 1 4 255 ⟨("FF").toList, false⟩ ⟨[], false⟩ rfl rfl (by decide)
    (by decide) (by decide) (by decide) (by decide)

/-- C8: `lookup_bootloader_addr` maps 0x4A/0x4B to addr-0x24 when the chip's
family id is at least 0xA2 and to addr-0x26 otherwise; maps 0x4C, 0x4D, 0x5A
and 0x5B to addr-0x26; and for every other supplied address returns -1, upon
which `mxt_bootloader_init_chip` treats the supplied address as already a
bootloader address (appmode address -1) and performs no address switch. -/
theorem c8_bootloader_addr_lookup (fam addr : Nat) :
    ((addr = 0x4a ∨ addr = 0x4b) →
      lookup_bootloader_addr fam addr =
        (if 0xa2 ≤ fam then (addr : Int) - 0x24 else (addr : Int) - 0x26)) ∧
    ((addr = 0x4c ∨ addr = 0x4d ∨ addr = 0x5a ∨ addr = 0x5b) →
      lookup_bootloader_addr fam addr = (addr : Int) - 0x26) ∧
    (addr ≠ 0x4a → addr ≠ 0x4b → addr ≠ 0x4c → addr ≠ 0x4d → addr ≠ 0x5a →
      addr ≠ 0x5b →
      lookup_bootloader_addr fam addr = -1 ∧
      mxt_bootloader_init_addr fam addr = ⟨(addr : Int), -1, false⟩) := by
  refine ⟨?_, ?_, ?_⟩
  · intro h
    rcases h with rfl | rfl <;> simp [lookup_bootloader_addr]
  · intro h
    rcases h with rfl | rfl | rfl | rfl <;> simp [lookup_bootloader_addr]
  · intro h1 h2 h3 h4 h5 h6
    have hl : lookup_bootloader_addr fam addr = -1 := by
      simp [lookup_bootloader_addr, h1, h2, h3, h4, h5, h6]
    exact ⟨hl, by simp [mxt_bootloader_init_addr, hl]⟩

/-- C8 witness: the lookup at concrete addresses — 0x4A with family 0xA2
(new-family offset), 0x4B with family 0x80 (fall-through offset), 0x5A, and
the unknown address 0x30 which is kept as the bootloader address with no
switch. -/
theorem c8_bootloader_addr_lookup_wit :
    lookup_bootloader_addr 0xa2 0x4a = 0x26 ∧
    lookup_bootloader_addr 0x80 0x4b = 0x25 ∧
    lookup_bootloader_addr 0 0x5a = 0x34 ∧
    (lookup_bootloader_addr 0 0x30 = -1 ∧
      mxt_bootloader_init_addr 0 0x30 = ⟨0x30, -1, false⟩) := by
  refine ⟨?_, ?_, ?_, ?_⟩
  · have h := (c8_bootloader_addr_lookup 0xa2 0x4a).1 (Or.inl rfl)
    rw [h]; decide
  · have h := (c8_bootloader_addr_lookup 0x80 0x4b).1 (Or.inr rfl)
    rw [h]; decide
  · have h := (c8_bootloader_addr_lookup 0 0x5a).2.1
      (Or.inr (Or.inr (Or.inl rfl)))
    rw [h]; decide
  · exact (c8_bootloader_addr_lookup 0 0x30).2.2 (by decide) (by decide)
      (by decide) (by decide) (by decide) (by decide)

/-- C9 counterexample: in a session of twenty successful frames the claim
"the informational 'Sent' line appears exactly after every 20th successful
frame" fails: the flag of the 20th success (index 19) is `false` — the
informational line fired after the 19th success instead, because the source
increments the 1-based `frame` counter before the `% 20` test. -/
theorem c9_info_not_at_20th_frame :
    ¬ infoAtMultiplesOf20 (send_frames c9file c9reads [] 0).2 := by
  intro h
  have h19 := (h 19 (by decide)).mpr (by decide)
  have h3 : (sentFlags (send_frames c9file c9reads [] 0).2).get? 19 =
      some false := by decide
  rw [h19] at h3
  simp at h3

/-- C9 amended: the per-frame "Sent" line of any session is informational
exactly when the frame number it carries — the counter after increment,
which is k+1 after the k-th successful frame — is divisible by 20; in the
concrete twenty-frame session the lines carry the numbers 2 to 21 and the
single informational line is the one numbered 20, i.e. the one after the
19th successful frame. -/
theorem c9_progress_log_rule (file : FileSt) (reads : List TResp)
    (writes : List Bool) (junk : Nat) :
    ((send_frames file reads writes junk).2).all sentOk = true ∧
    sentPairs (send_frames c9file c9reads [] 0).2 =
      (List.range' 2 20).map (fun a => (a, decide (a % 20 = 0))) := by
  constructor
  · simp only [send_frames]
    split
    · split
      · simp [List.all_append, check_trace_sentOk, sentOk]
      · simp [List.all_append, check_trace_sentOk, sentOk, frameLoop_sentOk]
    · split
      · simp [List.all_append, check_trace_sentOk, frameLoop_sentOk]
      · exact check_trace_sentOk _ _ _
  · decide
